import Mathlib

/-!
Verification of the x509-limbo testcase compilation and harness pipeline.

This development shallowly embeds:
  - the command-line compile and harness steps (`src/limbo/_cli.py`,
    functions `_compile` and `_harness`), and
  - the testcase bodies cited by the claims
    (`src/limbo/testcases/rfc5280.py`, `src/limbo/testcases/rfc5280/nc.py`).

The chain `Builder`, the `@testcase` registration decorator and the pydantic
data model live in `limbo/testcases/_core.py` and `limbo/models.py`, which are
not part of the provided sources; those parts are modelled from the
specification (sections 3, 4.2, 4.3, 4.5) and each such definition carries a
doc comment starting with `Modelled from the spec:`.
-/

/-! ## Data model -/

/-- Modelled from the spec: one subject-alternative-name or name-constraint
general name (spec section 3, PeerName kinds; `x509.DNSName` / `x509.IPAddress`
values appearing in the testcase bodies). Only the forms used by the embedded
testcases are represented. -/
inductive GeneralName where
  | DNSName (value : String)
  | IPAddr (value : String)
deriving DecidableEq, Repr

/-- Modelled from the spec: the value of a NameConstraints extension
(`x509.NameConstraints(permitted_subtrees=..., excluded_subtrees=...)` in the
testcase bodies; spec section 4.2 name-constraints parameter). -/
structure NameConstraintsVal where
  permitted : Option (List GeneralName)
  excluded : Option (List GeneralName)
deriving DecidableEq, Repr

/-- Modelled from the spec: a PeerName is a (kind, value) pair
(spec section 3); the testcase bodies build them as
`PeerName(kind="DNS", value=...)`. -/
structure PeerName where
  kind : String
  value : String
deriving DecidableEq, Repr

/-- Modelled from the spec: the expected validation outcome, exactly one of
SUCCESS or FAILURE (spec section 3, `expected_result`). -/
inductive ExpectedResult where
  | SUCCESS
  | FAILURE
deriving DecidableEq, Repr

/-- Modelled from the spec: which peer role the scenario certifies
(spec section 3, `validation_kind`). -/
inductive ValidationKind where
  | SERVER
  | CLIENT
deriving DecidableEq, Repr

/-- A distinguished name, as an ordered list of (attribute, value) pairs.
`x509.Name([])` is `[]`; `CN=foo` is `[("CN", "foo")]`. -/
abbrev DistName := List (String × String)

/-- Modelled from the spec: the certificate record produced by the chain
builder (spec section 3, Certificate). Keys and key-derived identifiers (AKI
and SKI values) are abstracted to natural numbers drawn from a fresh-key
counter; `aki`/`ski` store the key the identifier derives from together with
the criticality flag, or `none` when the extension is absent. `signedBy` is
the key of the issuing certificate. -/
structure Certificate where
  subject : DistName
  issuer : DistName
  isCa : Bool
  key : Nat
  signedBy : Nat
  san : Option (List GeneralName × Bool)
  nameConstraints : Option (NameConstraintsVal × Bool)
  aki : Option (Nat × Bool)
  ski : Option (Nat × Bool)
  pathlen : Option Nat
  notAfter : Option String
deriving DecidableEq, Repr

/-- Modelled from the spec: the fields of a finalized Testcase other than its
identifier (spec section 3). The identifier is attached at registration time
(spec section 3: the id is the module-qualified name of the authoring
function). Fields not exercised by any embedded testcase body
(description, conflicts_with, features, validation_time, extended_key_usage,
max_chain_depth) are omitted. -/
structure TestcaseBody where
  expectedResult : ExpectedResult
  validationKind : ValidationKind
  trustedCerts : List Certificate
  untrustedIntermediates : List Certificate
  peerCertificate : Certificate
  expectedPeerName : Option PeerName
  expectedPeerNames : Option (List PeerName)
deriving DecidableEq, Repr

/-- Modelled from the spec: a Testcase as it appears in a compiled document:
a unique identifier plus the finalized body (spec section 3). -/
structure Testcase where
  id : String
  expectedResult : ExpectedResult
  validationKind : ValidationKind
  trustedCerts : List Certificate
  untrustedIntermediates : List Certificate
  peerCertificate : Certificate
  expectedPeerName : Option PeerName
  expectedPeerNames : Option (List PeerName)
deriving DecidableEq, Repr

/-- Attaches a registration identifier to a finalized testcase body. -/
def Testcase.ofBody (id : String) (b : TestcaseBody) : Testcase :=
  { id := id
    expectedResult := b.expectedResult
    validationKind := b.validationKind
    trustedCerts := b.trustedCerts
    untrustedIntermediates := b.untrustedIntermediates
    peerCertificate := b.peerCertificate
    expectedPeerName := b.expectedPeerName
    expectedPeerNames := b.expectedPeerNames }

/-- Modelled from the spec: the Limbo document envelope
(spec section 3: version plus the ordered sequence of testcases).
`_cli.py` constructs it as `Limbo(version=1, testcases=...)`. -/
structure Limbo where
  version : Nat
  testcases : List Testcase
deriving DecidableEq, Repr

/-! ## Chain builder (modelled from the spec)

The `Builder` class lives in `limbo/testcases/_core.py`, which is not part of
the provided sources. The state machine below is modelled from spec
section 4.2: certificate-construction operations, a validation-kind selector,
configuration accumulators, and a terminal `succeeds`/`fails` call which
finalizes exactly one Testcase; a second terminal call or a finalization with
a missing required field is a fatal authoring error (spec section 7),
modelled with `Except`. -/

/-- A Python keyword argument that distinguishes "not passed" (the default
applies) from an explicit `None` from an explicit value. -/
inductive KwArg (α : Type) where
  | unset
  | null
  | given (a : α)
deriving DecidableEq, Repr

/-- Keyword arguments accepted by the certificate-construction operations, as
used by the embedded testcase bodies. Unlisted parameters of the source
functions are never passed by those bodies. -/
structure CertParams where
  issuer : Option DistName := none
  subject : Option DistName := none
  san : KwArg (List GeneralName × Bool) := .unset
  nameConstraints : Option (NameConstraintsVal × Bool) := none
  aki : KwArg Bool := .unset
  ski : KwArg (Nat × Bool) := .unset
  key : Option Nat := none
  pathlen : Option Nat := none
  notAfter : Option String := none

/-- Modelled from the spec: the mutable builder state (spec section 4.2
states INIT, SELECT_KIND, CONFIGURE, TERMINAL). `finalizedTestcase` holds the
single Testcase produced by the terminal call; `nextKey` is the fresh-key
counter backing generated key pairs. -/
structure BuilderState where
  nextKey : Nat := 0
  validationKind : Option ValidationKind := none
  trusted : List Certificate := []
  intermediates : List Certificate := []
  peerCert : Option Certificate := none
  peerName : Option PeerName := none
  peerNames : Option (List PeerName) := none
  finalizedTestcase : Option TestcaseBody := none

/-- A fresh builder, as handed to each testcase body by the registration
decorator. -/
def BuilderState.init : BuilderState := {}

/-- Draws a fresh key identifier from the builder counter (spec section 4.1:
key pairs are generated when omitted). -/
def BuilderState.freshKey (b : BuilderState) : Nat × BuilderState :=
  (b.nextKey, { b with nextKey := b.nextKey + 1 })

/-- Modelled from the spec: `root_ca` (spec section 4.2). Defaults: the
issuer is `CN=x509-limbo-root` (the root names appearing in
`multiple_chains_expired_intermediate` and `chain_untrusted_root` show the
default naming scheme), the subject defaults to the issuer (self-signed), the
key is generated, AKI and SKI are present, non-critical and derived from the
own key, and there is no SAN and no name-constraints extension by default. -/
def BuilderState.root_ca (b : BuilderState) (p : CertParams) :
    Certificate × BuilderState :=
  let kb := match p.key with
    | some k => (k, b)
    | none => b.freshKey
  let k := kb.1
  let b := kb.2
  let issuer := p.issuer.getD [("CN", "x509-limbo-root")]
  let subject := p.subject.getD issuer
  ({ subject := subject
     issuer := issuer
     isCa := true
     key := k
     signedBy := k
     san := match p.san with
       | .unset => none
       | .null => none
       | .given v => some v
     nameConstraints := p.nameConstraints
     aki := match p.aki with
       | .unset => some (k, false)
       | .null => none
       | .given c => some (k, c)
     ski := match p.ski with
       | .unset => some (k, false)
       | .null => none
       | .given v => some v
     pathlen := p.pathlen
     notAfter := p.notAfter }, b)

/-- Modelled from the spec: `intermediate_ca` (spec section 4.2). The
certificate is signed by `parent`; the issuer defaults to the parent subject,
the subject defaults to `CN=x509-limbo-intermediate`, the key is generated,
the AKI derives from the parent key and the SKI from the own key. -/
def BuilderState.intermediate_ca (b : BuilderState) (parent : Certificate)
    (p : CertParams) : Certificate × BuilderState :=
  let kb := match p.key with
    | some k => (k, b)
    | none => b.freshKey
  let k := kb.1
  let b := kb.2
  let issuer := p.issuer.getD parent.subject
  let subject := p.subject.getD [("CN", "x509-limbo-intermediate")]
  ({ subject := subject
     issuer := issuer
     isCa := true
     key := k
     signedBy := parent.key
     san := match p.san with
       | .unset => none
       | .null => none
       | .given v => some v
     nameConstraints := p.nameConstraints
     aki := match p.aki with
       | .unset => some (parent.key, false)
       | .null => none
       | .given c => some (parent.key, c)
     ski := match p.ski with
       | .unset => some (k, false)
       | .null => none
       | .given v => some v
     pathlen := p.pathlen
     notAfter := p.notAfter }, b)

/-- Modelled from the spec: `leaf_cert` (spec section 4.2). The certificate is
signed by `parent`; the issuer defaults to the parent subject, the subject
defaults to `CN=example.com`, and the default subject-alternative-name is the
single non-critical dNSName `example.com` (spec section 8 end-to-end
scenario). The AKI derives from the parent key. -/
def BuilderState.leaf_cert (b : BuilderState) (parent : Certificate)
    (p : CertParams) : Certificate × BuilderState :=
  let kb := match p.key with
    | some k => (k, b)
    | none => b.freshKey
  let k := kb.1
  let b := kb.2
  let issuer := p.issuer.getD parent.subject
  let subject := p.subject.getD [("CN", "example.com")]
  ({ subject := subject
     issuer := issuer
     isCa := false
     key := k
     signedBy := parent.key
     san := match p.san with
       | .unset => some ([GeneralName.DNSName "example.com"], false)
       | .null => none
       | .given v => some v
     nameConstraints := p.nameConstraints
     aki := match p.aki with
       | .unset => some (parent.key, false)
       | .null => none
       | .given c => some (parent.key, c)
     ski := match p.ski with
       | .unset => some (k, false)
       | .null => none
       | .given v => some v
     pathlen := p.pathlen
     notAfter := p.notAfter }, b)

/-- Modelled from the spec: `server_validation` selects the SERVER validation
kind (spec section 4.2, SELECT_KIND). -/
def BuilderState.server_validation (b : BuilderState) : BuilderState :=
  { b with validationKind := some .SERVER }

/-- Modelled from the spec: `client_validation` selects the CLIENT validation
kind (spec section 4.2, SELECT_KIND). -/
def BuilderState.client_validation (b : BuilderState) : BuilderState :=
  { b with validationKind := some .CLIENT }

/-- Modelled from the spec: the trust-anchor accumulator `trusted_certs`
(spec section 4.2, CONFIGURE). -/
def BuilderState.trusted_certs (b : BuilderState) (cs : List Certificate) :
    BuilderState :=
  { b with trusted := b.trusted ++ cs }

/-- Modelled from the spec: the `untrusted_intermediates` accumulator
(spec section 4.2, CONFIGURE). -/
def BuilderState.untrusted_intermediates (b : BuilderState)
    (cs : List Certificate) : BuilderState :=
  { b with intermediates := b.intermediates ++ cs }

/-- Modelled from the spec: `peer_certificate` sets the certificate under
test (spec section 4.2, CONFIGURE; required exactly once). -/
def BuilderState.peer_certificate (b : BuilderState) (c : Certificate) :
    BuilderState :=
  { b with peerCert := some c }

/-- Modelled from the spec: `expected_peer_name` sets the single expected
peer identity (spec section 4.2, CONFIGURE). -/
def BuilderState.expected_peer_name (b : BuilderState) (n : PeerName) :
    BuilderState :=
  { b with peerName := some n }

/-- Modelled from the spec: the terminal call (spec section 4.2, TERMINAL).
Finalizes the accumulated state into one Testcase body; a duplicate terminal
call or a missing validation kind or peer certificate is a fatal authoring
error (spec section 7). -/
def BuilderState.finalize (b : BuilderState) (r : ExpectedResult) :
    Except String BuilderState :=
  if b.finalizedTestcase.isSome then
    .error "duplicate terminal call"
  else
    match b.validationKind, b.peerCert with
    | some vk, some pc =>
        .ok { b with
          finalizedTestcase := some
            { expectedResult := r
              validationKind := vk
              trustedCerts := b.trusted
              untrustedIntermediates := b.intermediates
              peerCertificate := pc
              expectedPeerName := b.peerName
              expectedPeerNames := b.peerNames } }
    | _, _ => .error "missing required field at finalization"

/-- Modelled from the spec: `succeeds` (spec section 4.2, TERMINAL). -/
def BuilderState.succeeds (b : BuilderState) : Except String BuilderState :=
  b.finalize .SUCCESS

/-- Modelled from the spec: `fails` (spec section 4.2, TERMINAL). -/
def BuilderState.fails (b : BuilderState) : Except String BuilderState :=
  b.finalize .FAILURE

/-- Modelled from the spec: running one testcase body against a fresh builder
and extracting the finalized Testcase, as the registration decorator does
(spec section 4.3; a missing terminal call is a fatal authoring error). -/
def runBuilderProg (prog : BuilderState → Except String BuilderState) :
    Except String TestcaseBody := do
  let s ← prog BuilderState.init
  match s.finalizedTestcase with
  | some body => .ok body
  | none => .error "missing terminal call"

/-! ## Embedded testcase bodies

Each definition below is a line-by-line translation of the corresponding
`@testcase` function body from `src/limbo/testcases/rfc5280.py` or
`src/limbo/testcases/rfc5280/nc.py`, driving the modelled builder. -/

/-- Embeds `ca_empty_subject` (`src/limbo/testcases/rfc5280.py` lines 39-57):
a root with an empty subject, a default leaf, SERVER validation, an expected
peer name of DNS `example.com`, finalized with `fails()`. -/
def caEmptySubjectProg (b : BuilderState) : Except String BuilderState :=
  let rootb := b.root_ca { subject := some [] }
  let root := rootb.1
  let leafb := rootb.2.leaf_cert root {}
  let leaf := leafb.1
  let b := leafb.2.server_validation
  ((((b.trusted_certs [root]).peer_certificate leaf).expected_peer_name
    { kind := "DNS", value := "example.com" })).fails

/-- Embeds `self_signed_root_missing_aki` (`src/limbo/testcases/rfc5280.py`
lines 175-200): a self-signed root built with `aki=None`, a default leaf,
SERVER validation, finalized with `succeeds()` and no expected peer name. -/
def selfSignedRootMissingAkiProg (b : BuilderState) :
    Except String BuilderState :=
  let rootb := b.root_ca { aki := .null }
  let root := rootb.1
  let leafb := rootb.2.leaf_cert root {}
  let leaf := leafb.1
  let b := leafb.2.server_validation
  ((b.trusted_certs [root]).peer_certificate leaf).succeeds

/-- Embeds `multiple_chains_expired_intermediate`
(`src/limbo/testcases/rfc5280.py` lines 335-365), the chain-of-pain scenario:
two trusted roots, an expired cross intermediate reusing the first root key
and subject, a leaf under the first root, finalized with `succeeds()` and no
expected peer name. -/
def multipleChainsExpiredIntermediateProg (b : BuilderState) :
    Except String BuilderState :=
  let rootb := b.root_ca {}
  let root := rootb.1
  let roottwob := rootb.2.root_ca
    { issuer := some [("CN", "x509-limbo-root-2")] }
  let rootTwo := roottwob.1
  let icab := roottwob.2.intermediate_ca rootTwo
    { pathlen := some 1
      subject := some root.subject
      notAfter := some "1988-11-25T00:00:00Z"
      key := some root.key
      ski := .given (root.key, false) }
  let expiredIntermediate := icab.1
  let leafb := icab.2.leaf_cert root {}
  let leaf := leafb.1
  let b := leafb.2.server_validation
  (((b.trusted_certs [root, rootTwo]).untrusted_intermediates
    [expiredIntermediate]).peer_certificate leaf).succeeds

/-- Embeds `leaf_missing_aki` (`src/limbo/testcases/rfc5280.py`
lines 255-277): a default root, a leaf built with `aki=None`, SERVER
validation, trusted certs `[root]`, finalized with `fails()`. -/
def leafMissingAkiProg (b : BuilderState) : Except String BuilderState :=
  let rootb := b.root_ca {}
  let root := rootb.1
  let leafb := rootb.2.leaf_cert root { aki := .null }
  let leaf := leafb.1
  let b := leafb.2.server_validation
  ((b.trusted_certs [root]).peer_certificate leaf).fails

/-- Embeds `excluded_dns_match` (`src/limbo/testcases/rfc5280/nc.py`
lines 45-74): a default root, an intermediate carrying an excluded dNSName
`example.com` name constraint, a leaf with SAN dNSName `example.com`,
an expected peer name of DNS `example.com`, finalized with `fails()`. -/
def excludedDnsMatchProg (b : BuilderState) : Except String BuilderState :=
  let rootb := b.root_ca {}
  let root := rootb.1
  let icab := rootb.2.intermediate_ca root
    { nameConstraints := some
        ({ permitted := none
           excluded := some [GeneralName.DNSName "example.com"] }, true) }
  let ica := icab.1
  let leafb := icab.2.leaf_cert ica
    { san := .given ([GeneralName.DNSName "example.com"], false) }
  let leaf := leafb.1
  let b := leafb.2.server_validation
  ((((b.trusted_certs [root]).untrusted_intermediates
    [ica]).peer_certificate leaf).expected_peer_name
    { kind := "DNS", value := "example.com" }).fails

/-- Embeds `permitted_self_issued` (`src/limbo/testcases/rfc5280/nc.py`
lines 581-625): a root with subject and issuer `CN=not-example.com`, SAN
dNSName `not-example.com` and a permitted dNSName `example.com` name
constraint; a self-issued intermediate (subject = issuer =
`CN=not-example.com`) with SAN dNSName `not-example.com`; a default leaf;
finalized with `succeeds()` and no expected peer name. -/
def permittedSelfIssuedProg (b : BuilderState) : Except String BuilderState :=
  let rootb := b.root_ca
    { issuer := some [("CN", "not-example.com")]
      subject := some [("CN", "not-example.com")]
      san := .given ([GeneralName.DNSName "not-example.com"], false)
      nameConstraints := some
        ({ permitted := some [GeneralName.DNSName "example.com"]
           excluded := none }, true) }
  let root := rootb.1
  let icab := rootb.2.intermediate_ca root
    { issuer := some [("CN", "not-example.com")]
      subject := some [("CN", "not-example.com")]
      san := .given ([GeneralName.DNSName "not-example.com"], false) }
  let intermediate := icab.1
  let leafb := icab.2.leaf_cert intermediate {}
  let leaf := leafb.1
  let b := leafb.2.server_validation
  (((b.trusted_certs [root]).untrusted_intermediates
    [intermediate]).peer_certificate leaf).succeeds

/-- Embeds `excluded_self_issued_leaf` (`src/limbo/testcases/rfc5280/nc.py`
lines 628-672): a root with a permitted dNSName `example.com` name
constraint; an intermediate with subject `CN=not-example.com` and SAN dNSName
`not-example.com`; a self-issued leaf (subject = issuer =
`CN=not-example.com`) with SAN dNSName `not-example.com`; an expected peer
name of DNS `not-example.com`; finalized with `fails()`. -/
def excludedSelfIssuedLeafProg (b : BuilderState) :
    Except String BuilderState :=
  let rootb := b.root_ca
    { nameConstraints := some
        ({ permitted := some [GeneralName.DNSName "example.com"]
           excluded := none }, true) }
  let root := rootb.1
  let icab := rootb.2.intermediate_ca root
    { subject := some [("CN", "not-example.com")]
      san := .given ([GeneralName.DNSName "not-example.com"], false) }
  let intermediate := icab.1
  let leafb := icab.2.leaf_cert intermediate
    { issuer := some [("CN", "not-example.com")]
      subject := some [("CN", "not-example.com")]
      san := .given ([GeneralName.DNSName "not-example.com"], false) }
  let leaf := leafb.1
  let b := leafb.2.server_validation
  ((((b.trusted_certs [root]).untrusted_intermediates
    [intermediate]).peer_certificate leaf).expected_peer_name
    { kind := "DNS", value := "not-example.com" }).fails

/-- Embeds `ca_nameconstraints_permitted_self_issued`
(`src/limbo/testcases/rfc5280.py` lines 1108-1151), whose body is
line-for-line identical to `permitted_self_issued` in
`src/limbo/testcases/rfc5280/nc.py`. -/
def caNameconstraintsPermittedSelfIssuedProg (b : BuilderState) :
    Except String BuilderState :=
  permittedSelfIssuedProg b

/-! ## Registry and compiler -/

/-- A registered producer: a zero-argument closure materializing one
finalized testcase body, with authoring errors surfaced as exceptions
(spec sections 4.3 and 4.5). -/
abbrev Producer := Unit → Except String TestcaseBody

/-- The process-wide registry: an append-only association of identifiers to
producers, in registration order (spec section 4.3). -/
abbrev Registry := List (String × Producer)

/-- Modelled from the spec: `register(id, producer)` (spec section 4.3).
Registering a second producer under an already-registered id is a fatal
construction error. -/
def registerTestcase (reg : Registry) (id : String) (p : Producer) :
    Except String Registry :=
  if reg.any (fun e => e.1 == id) then
    .error id
  else
    .ok (reg ++ [(id, p)])

/-- Registers a whole list of (id, producer) pairs in order, stopping at the
first duplicate-id error. -/
def registerAll (reg : Registry) : List (String × Producer) →
    Except String Registry
  | [] => .ok reg
  | (id, p) :: rest =>
      match registerTestcase reg id p with
      | .error e => .error e
      | .ok reg2 => registerAll reg2 rest

/-- Embeds line 109 of `src/limbo/_cli.py`: every registered producer is
invoked in registry order to materialize its Testcase; the compiled
testcase carries the registry identifier (spec section 3: the id is the
module-qualified name of the authoring function, fixed at registration).
A raising producer aborts the whole compilation. -/
def materializeAll : Registry → Except String (List Testcase)
  | [] => .ok []
  | (id, p) :: rest =>
      match p () with
      | .error e => .error e
      | .ok body =>
          match materializeAll rest with
          | .error e => .error e
          | .ok tcs => .ok (Testcase.ofBody id body :: tcs)

/-- Embeds lines 109-110 of `src/limbo/_cli.py`: materialize every registered
producer, then wrap the result in the envelope `Limbo(version=1,
testcases=all_testcases)`. -/
def compileDocument (reg : Registry) : Except String Limbo :=
  match materializeAll reg with
  | .error e => .error e
  | .ok tcs => .ok { version := 1, testcases := tcs }

/-! ## Compile-step effect ordering

For the error-handling claim the relevant structure of `_compile`
(`src/limbo/_cli.py` lines 102-114) is the order of its fallible steps
relative to the opening of the output file: line 109 materializes every
testcase, line 110 constructs (and thereby validates) the `Limbo` envelope,
and only then does line 112 open the output path with mode `w` (creating or
truncating it) and line 114 write the serialized document. The embedding
below keeps materialization results, envelope validation and serialization
abstract and tracks the output file contents explicitly; an exception in an
earlier step leaves the file contents untouched. -/

/-- Collects a list of fallible producer results, propagating the first
exception, as the list comprehension on line 109 of `src/limbo/_cli.py`
does. -/
def sequenceExcept : List (Except String TestcaseBody) →
    Except String (List TestcaseBody)
  | [] => .ok []
  | .error e :: _ => .error e
  | .ok b :: rest =>
      match sequenceExcept rest with
      | .error e => .error e
      | .ok bs => .ok (b :: bs)

/-- Embeds the effect ordering of `_compile` (`src/limbo/_cli.py` lines
102-114). `produced` is the list of producer outcomes (line 109), `validate`
the envelope validation performed by the `Limbo` constructor (line 110),
`serialize` the rendering of `model_dump_json` (line 114, modelled as total),
and `fileContents` the state of the output file before the call (`none` when
it does not exist). The result pairs the control-flow outcome with the final
output-file state. -/
def compileEffects (produced : List (Except String TestcaseBody))
    (validate : List TestcaseBody → Except String Unit)
    (serialize : List TestcaseBody → String)
    (fileContents : Option String) :
    Except String Unit × Option String :=
  match sequenceExcept produced with
  | .error e => (.error e, fileContents)
  | .ok tcs =>
      match validate tcs with
      | .error e => (.error e, fileContents)
      | .ok () => (.ok (), some (serialize tcs))

/-! ## Harness runner -/

/-- Models the shell-glob matching of `fnmatch.fnmatch(name, pat)` from the
Python standard library (an external collaborator; spec section 6:
shell-glob-style patterns). `*` matches any run of characters and `?` any
single character; other characters match themselves. Bracket character
classes are not modelled; no theorem below depends on them. The match is
structural recursion on the pattern: a `*` consumes any suffix of the
name. -/
def globMatch : List Char → List Char → Bool
  | [], name => name.isEmpty
  | '*' :: ps, name => (name.tails).any fun t => globMatch ps t
  | '?' :: ps, name =>
      match name with
      | [] => false
      | _ :: cs => globMatch ps cs
  | p :: ps, name =>
      match name with
      | [] => false
      | c :: cs => p == c && globMatch ps cs

/-- Matches a testcase id against an fnmatch pattern, mirroring the argument
order of `fnmatch.fnmatch(tc.id, pattern)` in `src/limbo/_cli.py`. -/
def fnmatchId (id pat : String) : Bool :=
  globMatch pat.toList id.toList

/-- Embeds lines 122-126 of `src/limbo/_cli.py`: the harness filtering over
the parsed testcase sequence. Note the Python truthiness tests `if
args.include:` and `if args.exclude:`: a pattern that is present but equal to
the empty string triggers no filtering. -/
def harnessTestcases (includePat excludePat : Option String)
    (tcs : List Testcase) : List Testcase :=
  let tcs := match includePat with
    | some pat =>
        if pat == "" then tcs
        else tcs.filter fun tc => fnmatchId tc.id pat
    | none => tcs
  match excludePat with
  | some pat =>
      if pat == "" then tcs
      else tcs.filter fun tc => !(fnmatchId tc.id pat)
  | none => tcs

/-- Embeds line 127 of `src/limbo/_cli.py`: the filtered document is rebuilt
as `Limbo(version=1, testcases=testcases)`, discarding the version of the
parsed input document. -/
def harnessFilteredDoc (input : Limbo) (includePat excludePat : Option String) :
    Limbo :=
  { version := 1
    testcases := harnessTestcases includePat excludePat input.testcases }

/-- Embeds lines 120-127 of `src/limbo/_cli.py`: the text piped to the
external harness process. The raw file text is parsed and re-serialized only
inside the `args.include is not None or args.exclude is not None` branch;
`parse` stands for `Limbo.model_validate_json` and `serialize` for
`Limbo(...).json()`, both external to this file. -/
def harnessInputText (limboText : String)
    (includePat excludePat : Option String)
    (parse : String → Limbo) (serialize : Limbo → String) : String :=
  if includePat.isSome || excludePat.isSome then
    serialize (harnessFilteredDoc (parse limboText) includePat excludePat)
  else
    limboText

/-- The observable outcome of one external harness invocation
(`subprocess.run` on lines 130-132 of `src/limbo/_cli.py`). `returncode` is
the process exit status; `stdout` and `stderr` are its captured streams. -/
structure SubprocessResult where
  returncode : Int
  stdout : String
  stderr : String
deriving DecidableEq, Repr

/-- The file-system and terminal effects of the harness runner after the
external process finished. `resultsFile` is the content written to
`args.output` (`none` when nothing is written), `stderrSurfaced` the
diagnostic text printed to the standard error of the runner, and `raised`
records whether the runner itself escaped with an exception. -/
structure HarnessOutcome where
  resultsFile : Option String
  stderrSurfaced : Option String
  raised : Bool
deriving DecidableEq, Repr

/-- Embeds lines 129-136 of `src/limbo/_cli.py`: `subprocess.run(...,
check=True)` raises `CalledProcessError` exactly when the exit status is
non-zero; on success the captured standard output is written verbatim to the
output path, and on failure the handler prints the captured standard error
and the function returns normally without writing a results file. -/
def harnessProcessStep (r : SubprocessResult) : HarnessOutcome :=
  if r.returncode == 0 then
    { resultsFile := some r.stdout, stderrSurfaced := none, raised := false }
  else
    { resultsFile := none, stderrSurfaced := some r.stderr, raised := false }

/-! ## Derived certificate predicates for the self-issuance claim -/

/-- A certificate is self-issued when its subject equals its issuer
(spec glossary). -/
def Certificate.selfIssued (c : Certificate) : Bool :=
  c.subject == c.issuer

/-- The subject-alternative-name entries of a certificate (empty when the
extension is absent). -/
def Certificate.sanNames (c : Certificate) : List GeneralName :=
  (c.san.map Prod.fst).getD []

/-- The permitted subtrees of the NameConstraints extension of a certificate
(empty when absent). -/
def Certificate.permittedSubtrees (c : Certificate) : List GeneralName :=
  match c.nameConstraints with
  | some (nc, _) => nc.permitted.getD []
  | none => []

/-- Modelled from the spec: whether one general name falls within one of the
given constraint subtrees (spec glossary, name constraint). A dNSName
subtree matches the equal name and any subdomain of it. -/
def nameWithinSubtrees (subtrees : List GeneralName) (n : GeneralName) :
    Bool :=
  subtrees.any fun s =>
    match s, n with
    | .DNSName base, .DNSName v =>
        v == base || ("." ++ base).toList.isSuffixOf v.toList
    | .IPAddr base, .IPAddr v => v == base
    | _, _ => false

/-- Whether every subject-alternative-name entry satisfies the permitted
subtrees; its negation is what "violates the constraint" means in the
self-issuance claim. -/
def sanSatisfiesPermitted (subtrees san : List GeneralName) : Bool :=
  san.all fun n => nameWithinSubtrees subtrees n

/-- The shape asserted by the first half of the self-issuance claim: one
trust anchor carrying a permitted dNSName `example.com` constraint, one
self-issued untrusted intermediate whose SAN violates that constraint, and a
peer certificate whose SAN satisfies it. -/
def permittedSelfIssuedShape (tc : TestcaseBody) : Bool :=
  match tc.trustedCerts, tc.untrustedIntermediates with
  | [root], [ica] =>
      let subtrees := root.permittedSubtrees
      subtrees == [GeneralName.DNSName "example.com"] &&
      ica.selfIssued &&
      !(sanSatisfiesPermitted subtrees ica.sanNames) &&
      sanSatisfiesPermitted subtrees tc.peerCertificate.sanNames &&
      !(tc.peerCertificate.selfIssued)
  | _, _ => false

/-- The shape asserted by the second half of the self-issuance claim: one
trust anchor carrying a permitted dNSName `example.com` constraint and a
self-issued peer (leaf) certificate whose SAN violates that constraint,
while the untrusted intermediate is not self-issued. -/
def excludedSelfIssuedLeafShape (tc : TestcaseBody) : Bool :=
  match tc.trustedCerts, tc.untrustedIntermediates with
  | [root], [ica] =>
      let subtrees := root.permittedSubtrees
      subtrees == [GeneralName.DNSName "example.com"] &&
      !ica.selfIssued &&
      tc.peerCertificate.selfIssued &&
      !(sanSatisfiesPermitted subtrees tc.peerCertificate.sanNames)
  | _, _ => false

/-! ## Registries for the concrete claims -/

/-- A registry holding only the producer of `self_signed_root_missing_aki`,
under its module-qualified registration id. -/
def selfSignedRootMissingAkiRegistry : Registry :=
  [("rfc5280::self-signed-root-missing-aki",
    fun _ => runBuilderProg selfSignedRootMissingAkiProg)]

/-- The document compiled from `selfSignedRootMissingAkiRegistry`. -/
def selfSignedRootMissingAkiDoc : Limbo :=
  (compileDocument selfSignedRootMissingAkiRegistry).toOption.getD ⟨0, []⟩

/-- A registry holding only the producer of `leaf_missing_aki`, under its
module-qualified registration id. -/
def leafMissingAkiRegistry : Registry :=
  [("rfc5280::leaf-missing-aki", fun _ => runBuilderProg leafMissingAkiProg)]

/-- The root certificate constructed by `leaf_missing_aki`: the first
certificate built by a fresh builder with all defaults. -/
def leafMissingAkiRoot : Certificate :=
  (BuilderState.init.root_ca {}).1

/-- A registry holding only the producer of `ca_empty_subject`, under its
module-qualified registration id. -/
def caEmptySubjectRegistry : Registry :=
  [("rfc5280::ca-empty-subject", fun _ => runBuilderProg caEmptySubjectProg)]

/-! ## Claim C1 -/

/-- Claim C1, counterexample: compiling the registry that holds the cited
testcase `self_signed_root_missing_aki` yields a document containing a
Testcase with expected result SUCCESS and with neither `expected_peer_name`
nor `expected_peer_names` present — so not every SUCCESS Testcase in a
compiled document carries an expected peer name. -/
theorem c1_counterexample :
    compileDocument selfSignedRootMissingAkiRegistry
        = .ok selfSignedRootMissingAkiDoc ∧
    ¬ (∀ tc ∈ selfSignedRootMissingAkiDoc.testcases,
        tc.expectedResult = .SUCCESS →
          tc.expectedPeerName.isSome = true ∨
          tc.expectedPeerNames.isSome = true) := by
  constructor
  · rfl
  · decide

/-- Claim C1, amended: an expected peer name is optional on SUCCESS
testcases. The testcases cited by the claim that are finalized with
`succeeds()` — `self_signed_root_missing_aki`,
`multiple_chains_expired_intermediate` and `permitted_self_issued` — each
materialize with expected result SUCCESS while carrying neither
`expected_peer_name` nor `expected_peer_names`. -/
theorem c1_amended_optional_peer_names :
    ([selfSignedRootMissingAkiProg, multipleChainsExpiredIntermediateProg,
      permittedSelfIssuedProg].map fun prog =>
        (runBuilderProg prog).map fun tc =>
          (tc.expectedResult, tc.expectedPeerName, tc.expectedPeerNames))
    = [.ok (.SUCCESS, none, none), .ok (.SUCCESS, none, none),
       .ok (.SUCCESS, none, none)] := by
  rfl

/-! ## Claim C2 -/

/-- Claim C2: the self-issuance exemption pair is encoded as stated.
`permitted_self_issued` materializes a scenario of the permitted
self-issued-intermediate shape and asserts SUCCESS;
`excluded_self_issued_leaf` materializes the symmetric self-issued-leaf
shape and asserts FAILURE; and `ca_nameconstraints_permitted_self_issued`
builds the identical SUCCESS scenario. -/
theorem c2_self_issuance_exemption :
    (runBuilderProg permittedSelfIssuedProg).map
        (fun tc => (permittedSelfIssuedShape tc, tc.expectedResult))
      = .ok (true, .SUCCESS) ∧
    (runBuilderProg excludedSelfIssuedLeafProg).map
        (fun tc => (excludedSelfIssuedLeafShape tc, tc.expectedResult))
      = .ok (true, .FAILURE) ∧
    runBuilderProg caNameconstraintsPermittedSelfIssuedProg
      = runBuilderProg permittedSelfIssuedProg := by
  refine ⟨by rfl, by rfl, rfl⟩

/-! ## Claim C6 -/

/-- Claim C6: driving a builder through `root_ca()`, `leaf_cert(root,
aki=None)`, `server_validation()`, `trusted_certs(root)`,
`peer_certificate(leaf)` and `fails()` — the body of `leaf_missing_aki` —
registers exactly one Testcase, and the compiled document built from that
registration holds exactly one Testcase with expected result FAILURE,
validation kind SERVER, trusted certificates `[root]` and no untrusted
intermediates. -/
theorem c6_leaf_missing_aki_scenario :
    (compileDocument leafMissingAkiRegistry).map
        (fun doc => doc.testcases.length) = .ok 1 ∧
    (compileDocument leafMissingAkiRegistry).map
        (fun doc => doc.testcases.map fun tc =>
          (tc.expectedResult, tc.validationKind, tc.trustedCerts,
           tc.untrustedIntermediates))
      = .ok [(.FAILURE, .SERVER, [leafMissingAkiRoot], [])] := by
  refine ⟨by rfl, by rfl⟩

/-! ## Claim C7 -/

/-- Claim C7, counterexample: `ca_empty_subject` is finalized with `fails()`
yet carries an expected peer name: the compiled document holds exactly one
Testcase, with expected result FAILURE and `expected_peer_name = (DNS,
example.com)` — so peer names are not confined to SUCCESS testcases. -/
theorem c7_counterexample :
    (compileDocument caEmptySubjectRegistry).map
        (fun doc => doc.testcases.map fun tc =>
          (tc.expectedResult, tc.expectedPeerName))
      = .ok [(.FAILURE, some { kind := "DNS", value := "example.com" })] := by
  rfl

/-- Claim C7, amended: `expected_peer_name` may be present on Testcases of
either expected result; it is merely not asserted on FAILURE. Both testcases
cited by the claim — `ca_empty_subject` and `excluded_dns_match` — finalize
with `fails()` while carrying `expected_peer_name = (DNS, example.com)`. -/
theorem c7_amended_peer_name_on_failure :
    ([caEmptySubjectProg, excludedDnsMatchProg].map fun prog =>
        (runBuilderProg prog).map fun tc =>
          (tc.expectedResult, tc.expectedPeerName))
    = [.ok (.FAILURE, some { kind := "DNS", value := "example.com" }),
       .ok (.FAILURE, some { kind := "DNS", value := "example.com" })] := by
  rfl

/-! ## Claim C3 -/

/-- Formalizes the filtering exactly as the claim words it: when an include
pattern is given, keep exactly the testcases whose id matches it; then, when
an exclude pattern is given, remove exactly the testcases whose id matches
it, preserving order. -/
def claimFilterSeq (includePat excludePat : Option String)
    (tcs : List Testcase) : List Testcase :=
  let kept := match includePat with
    | some pat => tcs.filter fun tc => fnmatchId tc.id pat
    | none => tcs
  match excludePat with
  | some pat => kept.filter fun tc => !(fnmatchId tc.id pat)
  | none => kept

/-- Normalizes a pattern option the way the Python truthiness tests in
`_harness` do: a present-but-empty pattern behaves as if absent. -/
def nonEmptyPattern : Option String → Option String
  | some pat => if pat == "" then none else some pat
  | none => none

/-- The per-testcase predicate of an independent linear scan-and-match:
a testcase is kept when it matches the include pattern (or none is given)
and does not match the exclude pattern (or none is given). -/
def keepTestcase (includePat excludePat : Option String) (tc : Testcase) :
    Bool :=
  (match includePat with
   | some pat => fnmatchId tc.id pat
   | none => true) &&
  (match excludePat with
   | some pat => !(fnmatchId tc.id pat)
   | none => true)

/-- An independent linear scan-and-match over the unfiltered sequence,
counting the testcases that survive both patterns. -/
def scanMatchCount (includePat excludePat : Option String)
    (tcs : List Testcase) : Nat :=
  tcs.countP fun tc => keepTestcase includePat excludePat tc

/-- A concrete certificate used by the concrete filtering inputs. -/
def sampleCert : Certificate :=
  { subject := [("CN", "example.com")]
    issuer := [("CN", "x509-limbo-root")]
    isCa := false
    key := 1
    signedBy := 0
    san := some ([GeneralName.DNSName "example.com"], false)
    nameConstraints := none
    aki := some (0, false)
    ski := some (1, false)
    pathlen := none
    notAfter := none }

/-- A concrete testcase with a non-empty id, used by the concrete filtering
inputs. -/
def sampleTestcase : Testcase :=
  { id := "rfc5280::leaf-missing-aki"
    expectedResult := .FAILURE
    validationKind := .SERVER
    trustedCerts := []
    untrustedIntermediates := []
    peerCertificate := sampleCert
    expectedPeerName := none
    expectedPeerNames := none }

/-- Double filtering counts the elements satisfying both predicates. -/
theorem filter_filter_length_countP {α : Type} (p q : α → Bool)
    (l : List α) :
    ((l.filter p).filter q).length = l.countP fun a => p a && q a := by
  induction l with
  | nil => rfl
  | cons a l ih =>
      cases hp : p a <;> cases hq : q a <;>
        simp only [List.filter_cons, List.countP_cons, hp, hq,
          Bool.false_and, Bool.true_and, Bool.and_false, Bool.and_true,
          if_true, if_false, List.length_cons, ih, Bool.false_eq_true,
          Nat.add_zero, reduceIte]

/-- Lengthwise, the claim-side filtering agrees with the independent
scan-and-match count. -/
theorem claimFilterSeq_length (includePat excludePat : Option String)
    (tcs : List Testcase) :
    (claimFilterSeq includePat excludePat tcs).length
      = scanMatchCount includePat excludePat tcs := by
  cases includePat with
  | none =>
      cases excludePat with
      | none => simp [claimFilterSeq, scanMatchCount, keepTestcase]
      | some q =>
          simp [claimFilterSeq, scanMatchCount, keepTestcase,
            List.countP_eq_length_filter]
  | some p =>
      cases excludePat with
      | none =>
          simp [claimFilterSeq, scanMatchCount, keepTestcase,
            List.countP_eq_length_filter]
      | some q =>
          simp only [claimFilterSeq, scanMatchCount, keepTestcase]
          exact filter_filter_length_countP _ _ tcs

/-- The embedded harness filtering agrees with the claim-side filtering once
empty patterns are normalized away. -/
theorem harnessTestcases_eq_claimFilterSeq (includePat excludePat :
    Option String) (tcs : List Testcase) :
    harnessTestcases includePat excludePat tcs
      = claimFilterSeq (nonEmptyPattern includePat)
          (nonEmptyPattern excludePat) tcs := by
  cases includePat with
  | none =>
      cases excludePat with
      | none => rfl
      | some q =>
          cases hq : q == "" <;>
            simp [harnessTestcases, claimFilterSeq, nonEmptyPattern, hq]
  | some p =>
      cases hp : p == "" <;> cases excludePat with
      | none =>
          simp [harnessTestcases, claimFilterSeq, nonEmptyPattern, hp]
      | some q =>
          cases hq : q == "" <;>
            simp [harnessTestcases, claimFilterSeq, nonEmptyPattern, hp, hq]

/-- Claim C3, counterexample: with the present-but-empty include pattern,
the harness keeps a testcase with a non-empty id (Python truthiness skips
the filter), while the filtering as the claim words it removes it, because
the empty glob pattern matches no non-empty id. -/
theorem c3_counterexample :
    harnessTestcases (some "") none [sampleTestcase] = [sampleTestcase] ∧
    claimFilterSeq (some "") none [sampleTestcase] = [] ∧
    harnessTestcases (some "") none [sampleTestcase]
      ≠ claimFilterSeq (some "") none [sampleTestcase] := by
  decide

/-- Claim C3, amended: for every input sequence and every pair of optional
glob patterns, with a present-but-empty pattern treated as absent (Python
string truthiness), the filtered sequence of the harness runner equals
keeping exactly the include-pattern matches and then removing exactly the
exclude-pattern matches, preserving order; hence its length equals an
independent linear scan-and-match over the unfiltered sequence. -/
theorem c3_amended_filter_semantics :
    ∀ (includePat excludePat : Option String) (tcs : List Testcase),
      harnessTestcases includePat excludePat tcs
        = claimFilterSeq (nonEmptyPattern includePat)
            (nonEmptyPattern excludePat) tcs ∧
      (harnessTestcases includePat excludePat tcs).length
        = scanMatchCount (nonEmptyPattern includePat)
            (nonEmptyPattern excludePat) tcs := by
  intro includePat excludePat tcs
  have h := harnessTestcases_eq_claimFilterSeq includePat excludePat tcs
  exact ⟨h, by rw [h, claimFilterSeq_length]⟩

/-! ## Claim C4 -/

/-- Claim C4: when the external process exits non-zero, the runner surfaces
the captured standard error, writes no results file and returns normally
without raising; when it exits zero, the captured standard output is written
verbatim to the output path. -/
theorem c4_harness_process_outcome :
    ∀ r : SubprocessResult,
      (r.returncode ≠ 0 →
        harnessProcessStep r
          = { resultsFile := none
              stderrSurfaced := some r.stderr
              raised := false }) ∧
      (r.returncode = 0 →
        harnessProcessStep r
          = { resultsFile := some r.stdout
              stderrSurfaced := none
              raised := false }) := by
  intro r
  constructor
  · intro h
    simp [harnessProcessStep, h]
  · intro h
    simp [harnessProcessStep, h]

/-- Claim C4, witness: the theorem applied at the concrete process outcomes
with exit status 1 and 0. -/
theorem c4_witness :
    harnessProcessStep { returncode := 1, stdout := "out", stderr := "diag" }
      = { resultsFile := none, stderrSurfaced := some "diag",
          raised := false } ∧
    harnessProcessStep { returncode := 0, stdout := "out", stderr := "diag" }
      = { resultsFile := some "out", stderrSurfaced := none,
          raised := false } :=
  ⟨(c4_harness_process_outcome
      { returncode := 1, stdout := "out", stderr := "diag" }).1 (by decide),
   (c4_harness_process_outcome
      { returncode := 0, stdout := "out", stderr := "diag" }).2 rfl⟩

/-! ## Claim C5 -/

/-- Claim C5: if any producer raises while materializing its Testcase, or
the validation of the aggregate Limbo envelope fails, then the output file
is left exactly as it was: it is neither created nor truncated, because both
fallible steps complete before the output file is opened. -/
theorem c5_no_partial_output :
    ∀ (produced : List (Except String TestcaseBody))
      (validate : List TestcaseBody → Except String Unit)
      (serialize : List TestcaseBody → String)
      (fileContents : Option String) (e : String)
      (finalContents : Option String),
      compileEffects produced validate serialize fileContents
        = (.error e, finalContents) →
      finalContents = fileContents := by
  intro produced validate serialize fileContents e finalContents h
  unfold compileEffects at h
  split at h
  · rw [Prod.mk.injEq] at h
    exact h.2.symm
  · split at h
    · rw [Prod.mk.injEq] at h
      exact h.2.symm
    · rw [Prod.mk.injEq] at h
      exact absurd h.1 (by simp)

/-- Claim C5, witness: the theorem applied to a concrete raising producer
with a concrete pre-existing output file. -/
theorem c5_witness : (some "old" : Option String) = some "old" :=
  c5_no_partial_output [.error "boom"] (fun _ => .ok ()) (fun _ => "doc")
    (some "old") "boom" (some "old") rfl

/-! ## Claim C8 -/

/-- Materialized documents list exactly one testcase per registry entry, in
order, each carrying its registry identifier. -/
theorem materializeAll_ids (reg : Registry) (tcs : List Testcase)
    (h : materializeAll reg = .ok tcs) :
    tcs.map Testcase.id = reg.map Prod.fst := by
  induction reg generalizing tcs with
  | nil =>
      simp only [materializeAll] at h
      cases h
      rfl
  | cons e rest ih =>
      simp only [materializeAll] at h
      split at h
      · exact absurd h (by simp)
      · split at h
        · exact absurd h (by simp)
        · cases h
          rename_i body hbody tcs2 htcs2
          simp [Testcase.ofBody, ih tcs2 htcs2]

/-- Successful registration preserves the no-duplicate-keys invariant. -/
theorem registerAll_nodup (entries : List (String × Producer)) :
    ∀ (reg reg2 : Registry), (reg.map Prod.fst).Nodup →
      registerAll reg entries = .ok reg2 → (reg2.map Prod.fst).Nodup := by
  induction entries with
  | nil =>
      intro reg reg2 hnd h
      simp only [registerAll] at h
      cases h
      exact hnd
  | cons e rest ih =>
      intro reg reg2 hnd h
      obtain ⟨id, p⟩ := e
      cases hany : reg.any (fun x => x.1 == id) with
      | true =>
          simp only [registerAll, registerTestcase, hany, if_true] at h
          exact absurd h (by simp)
      | false =>
          simp only [registerAll, registerTestcase, hany,
            Bool.false_eq_true, if_false] at h
          refine ih (reg ++ [(id, p)]) reg2 ?_ h
          have hnotin : id ∉ reg.map Prod.fst := by
            intro hmem
            obtain ⟨x, hx, hfst⟩ := List.mem_map.mp hmem
            have hbeq : (x.1 == id) = true := by simp [hfst]
            have hTrue : (reg.any fun x => x.1 == id) = true :=
              List.any_eq_true.mpr ⟨x, hx, hbeq⟩
            rw [hany] at hTrue
            exact Bool.noConfusion hTrue
          simp only [List.map_append, List.map_cons, List.map_nil]
          exact List.nodup_append.mpr
            ⟨hnd, List.nodup_singleton id,
             by simpa [List.disjoint_singleton] using hnotin⟩

/-- Claim C8: a registry assembled by successful `register` calls has
pairwise-distinct identifiers, and the compiled document inherits them: its
testcases sequence contains no two entries with equal id. -/
theorem c8_compiled_ids_nodup :
    ∀ (entries : List (String × Producer)) (reg : Registry) (doc : Limbo),
      registerAll [] entries = .ok reg →
      compileDocument reg = .ok doc →
      (doc.testcases.map Testcase.id).Nodup := by
  intro entries reg doc hr hc
  have hkeys : (reg.map Prod.fst).Nodup :=
    registerAll_nodup entries [] reg (by simp) hr
  unfold compileDocument at hc
  cases hm : materializeAll reg with
  | error e =>
      rw [hm] at hc
      exact absurd hc (by simp)
  | ok tcs =>
      rw [hm] at hc
      cases hc
      simpa [materializeAll_ids reg tcs hm] using hkeys

/-- The two-entry registration list used by the C8 witness. -/
def c8WitnessEntries : List (String × Producer) :=
  [("rfc5280::leaf-missing-aki", fun _ => runBuilderProg leafMissingAkiProg),
   ("rfc5280::ca-empty-subject", fun _ => runBuilderProg caEmptySubjectProg)]

/-- The registry obtained by registering the two C8 witness entries. -/
def c8WitnessReg : Registry :=
  (registerAll [] c8WitnessEntries).toOption.getD []

/-- The document compiled from the C8 witness registry. -/
def c8WitnessDoc : Limbo :=
  (compileDocument c8WitnessReg).toOption.getD ⟨0, []⟩

/-- Claim C8, witness: the theorem applied to the concrete two-entry
registration list. -/
theorem c8_witness : (c8WitnessDoc.testcases.map Testcase.id).Nodup :=
  c8_compiled_ids_nodup c8WitnessEntries c8WitnessReg c8WitnessDoc rfl rfl

/-! ## Claim C9 -/

/-- Claim C9: when neither an include nor an exclude pattern is supplied,
the harness runner pipes the input document text to the external process
unchanged, for every possible parse and serialize function — so no
parse/re-serialize round trip can influence the piped bytes. -/
theorem c9_no_roundtrip_without_patterns :
    ∀ (limboText : String) (parse : String → Limbo)
      (serialize : Limbo → String),
      harnessInputText limboText none none parse serialize = limboText := by
  intro limboText parse serialize
  rfl

/-! ## Claim C10 -/

/-- Claim C10: every document the system emits carries version 1: a
successful compilation yields a document with version 1 for every registry,
and the filtered document the harness re-serializes carries version 1 for
every input document — whatever version that input declared — and every
pattern pair. -/
theorem c10_version_always_one :
    ∀ (reg : Registry) (doc : Limbo) (input : Limbo)
      (includePat excludePat : Option String),
      (compileDocument reg = .ok doc → doc.version = 1) ∧
      (harnessFilteredDoc input includePat excludePat).version = 1 := by
  intro reg doc input includePat excludePat
  constructor
  · intro h
    unfold compileDocument at h
    cases hm : materializeAll reg with
    | error e => rw [hm] at h; exact absurd h (by simp)
    | ok tcs => rw [hm] at h; cases h; rfl
  · rfl

/-- Claim C10, witness: the theorem applied to the empty registry and to a
concrete input document declaring version 7. -/
theorem c10_witness :
    (Limbo.mk 1 []).version = 1 ∧
    (harnessFilteredDoc (Limbo.mk 7 []) (some "rfc5280::*") none).version
      = 1 :=
  ⟨(c10_version_always_one [] (Limbo.mk 1 []) (Limbo.mk 7 [])
      (some "rfc5280::*") none).1 rfl,
   (c10_version_always_one [] (Limbo.mk 1 []) (Limbo.mk 7 [])
      (some "rfc5280::*") none).2⟩
